import Mathlib

/-!
Verification development for the ai-gateway repository.

The repository is a TypeScript HTTP gateway bridging chat-completion
services (Groq / Cohere / OpenAI) to an MCP tool host.  It contains four
variants of `src/server.ts`; the distinct logic verified here:

* `extractTextFromMcpResult` (src/server.ts and part_001) and
  `extractMcpText` (part_002): normalizing a raw MCP tool result to text;
* the tool-execution loops of part_001, part_002 and the Groq variant of
  src/server.ts;
* `getGroqTools` (part_001): tool discovery with caching;
* the per-conversation history handling of part_000 / part_002;
* the request validation and error paths of the part_001 handler.

JavaScript values are embedded as `JSValue` (a mutual inductive so that
all functions are structurally recursive and kernel-evaluable).
`JSON.stringify(x, null, 2)` is modelled by `jsonStringify` up to
whitespace (compact form); `JSON.parse` and the MCP tool host are
external effects and are passed to the loops as function parameters.
-/

namespace AiGateway

mutual
/-- A JavaScript value: `undefined`, `null`, booleans, numbers (modelled
as integers; the repository only manipulates structural data), strings,
arrays and plain objects. -/
inductive JSValue : Type where
  | undef : JSValue
  | null : JSValue
  | bool : Bool → JSValue
  | num : Int → JSValue
  | str : String → JSValue
  | arr : JSList → JSValue
  | obj : JSFields → JSValue
deriving DecidableEq

/-- A list of JavaScript values (element list of an array). -/
inductive JSList : Type where
  | nil : JSList
  | cons : JSValue → JSList → JSList
deriving DecidableEq

/-- The field list of a JavaScript object, in insertion order. -/
inductive JSFields : Type where
  | nil : JSFields
  | cons : String → JSValue → JSFields → JSFields
deriving DecidableEq
end

namespace JSValue

/-- JavaScript truthiness: `undefined`, `null`, `false`, `0` and the
empty string are falsy; every other value (including empty arrays and
empty objects) is truthy. -/
def truthy : JSValue → Bool
  | .undef => false
  | .null => false
  | .bool b => b
  | .num n => n != 0
  | .str s => s != ""
  | .arr _ => true
  | .obj _ => true

/-- Property access `v.k` / `v?.k`: on an object, the named field (or
`undefined` when absent); on any other value, `undefined`.  This matches
JavaScript for the property names used by the repository (no such
property exists on primitives or arrays). -/
def field : JSValue → String → JSValue
  | .obj fs, k => go fs k
  | _, _ => .undef
where
  go : JSFields → String → JSValue
    | .nil, _ => .undef
    | .cons k v rest, k2 => if k = k2 then v else go rest k2
  termination_by structural fs => fs

/-- The nullish-coalescing operator `a ?? b`. -/
def coalesce (a b : JSValue) : JSValue :=
  match a with
  | .undef => b
  | .null => b
  | v => v

end JSValue

/-- Escaping applied by `JSON.stringify` inside string literals
(backslash and double quote; control characters do not occur in the
repository's data). -/
def jsonEscape (s : String) : String :=
  String.mk (s.data.foldr (fun c acc =>
    if c = '\\' then '\\' :: '\\' :: acc
    else if c = '"' then '\\' :: '"' :: acc
    else c :: acc) [])

/-- A JSON string literal. -/
def jsonQuote (s : String) : String := "\"" ++ jsonEscape s ++ "\""

mutual
/-- `JSON.stringify` (modelled up to whitespace: the source passes an
indent of 2, serialized here in compact form).  Returns `none` exactly
when JavaScript returns the value `undefined` (input `undefined`). -/
def jsonStringify : JSValue → Option String
  | .undef => none
  | .null => some "null"
  | .bool b => some (cond b "true" "false")
  | .num n => some (toString n)
  | .str s => some (jsonQuote s)
  | .arr xs => some ("[" ++ jsonStringifyList xs ++ "]")
  | .obj fs => some ("\x7b" ++ jsonStringifyFields fs ++ "\x7d")
termination_by structural v => v

/-- Array elements, comma separated; `undefined` elements serialize as
`null`, as in JavaScript. -/
def jsonStringifyList : JSList → String
  | .nil => ""
  | .cons v .nil => (jsonStringify v).getD "null"
  | .cons v rest => (jsonStringify v).getD "null" ++ "," ++ jsonStringifyList rest
termination_by structural xs => xs

/-- Object fields, comma separated; fields whose value is `undefined`
are skipped, as in JavaScript. -/
def jsonStringifyFields : JSFields → String
  | .nil => ""
  | .cons k v rest =>
    match jsonStringify v with
    | none => jsonStringifyFields rest
    | some sv =>
      match rest with
      | .nil => jsonQuote k ++ ":" ++ sv
      | _ =>
        let tail := jsonStringifyFields rest
        if tail = "" then jsonQuote k ++ ":" ++ sv
        else jsonQuote k ++ ":" ++ sv ++ "," ++ tail
termination_by structural fs => fs
end

/-- `JSON.stringify` of a value known not to be `undefined`, as a
`JSValue` (`.str` of the serialization, or `undefined`). -/
def jsonStringifyVal (v : JSValue) : JSValue :=
  match jsonStringify v with
  | some s => .str s
  | none => .undef

mutual
/-- JavaScript string conversion `String(x)`. -/
def jsToString : JSValue → String
  | .undef => "undefined"
  | .null => "null"
  | .bool b => cond b "true" "false"
  | .num n => toString n
  | .str s => s
  | .arr xs => jsToStringList xs
  | .obj _ => "[object Object]"
termination_by structural v => v

/-- `Array.prototype.toString` joins elements with commas; `null` and
`undefined` elements become the empty string. -/
def jsToStringList : JSList → String
  | .nil => ""
  | .cons .undef .nil => ""
  | .cons .null .nil => ""
  | .cons v .nil => jsToString v
  | .cons .undef rest => "," ++ jsToStringList rest
  | .cons .null rest => "," ++ jsToStringList rest
  | .cons v rest => jsToString v ++ "," ++ jsToStringList rest
termination_by structural xs => xs
end

/-- Whitespace characters removed by `String.prototype.trim` (the
repository's prompts only involve these). -/
def isJsSpace (c : Char) : Bool :=
  c = ' ' || c = '\t' || c = '\n' || c = '\r'

/-- The JavaScript `.trim()` method: strip leading and trailing
whitespace. -/
def jsTrim (s : String) : String :=
  String.mk (((s.data.dropWhile isJsSpace).reverse.dropWhile isJsSpace).reverse)

/-- Outcome of evaluating a JavaScript expression: a value, or a thrown
exception carrying its message. -/
inductive JsOutcome : Type where
  | thrown : String → JsOutcome
  | value : JSValue → JsOutcome
deriving DecidableEq

/-- `content.find((c) => c.type === "text")`: the first element whose
`type` property is the string `"text"`, or `undefined`; accessing
`.type` on a `null`/`undefined` element throws a `TypeError`. -/
def findTextBlock : JSList → JsOutcome
  | .nil => .value .undef
  | .cons c rest =>
    match c with
    | .undef => .thrown "TypeError: Cannot read properties of undefined"
    | .null => .thrown "TypeError: Cannot read properties of null"
    | c =>
      if c.field "type" = JSValue.str "text" then .value c
      else findTextBlock rest
termination_by structural xs => xs

/-- `extractTextFromMcpResult` (src/server.ts lines 68-73; identical in
part_001 lines 86-91): if `result?.structuredContent` is truthy, return
its serialization; else take the first `type === "text"` content block's
`text` if it is a string; else serialize the whole raw result.  Calling
`.find` on a non-array, non-nullish `content` throws. -/
def extractTextFromMcpResult (result : JSValue) : JsOutcome :=
  let sc := result.field "structuredContent"
  if sc.truthy then .value (jsonStringifyVal sc)
  else
    match result.field "content" with
    | .undef => .value (jsonStringifyVal result)
    | .null => .value (jsonStringifyVal result)
    | .arr xs =>
      match findTextBlock xs with
      | .thrown e => .thrown e
      | .value found =>
        match found.field "text" with
        | .str t => .value (.str t)
        | _ => .value (jsonStringifyVal result)
    | _ => .thrown "TypeError: content.find is not a function"

/-- The text strings gathered by `extractMcpText` from an array-valued
`content`: for each element, its `text` converted with
`String(c.text ?? "")` when `c?.type === "text"`, else the empty string;
then `.filter(Boolean)` keeps the non-empty ones. -/
def mcpTexts : JSList → List String
  | .nil => []
  | .cons c rest =>
    let t := if c.field "type" = JSValue.str "text"
      then jsToString ((c.field "text").coalesce (.str ""))
      else ""
    if t = "" then mcpTexts rest else t :: mcpTexts rest
termination_by structural xs => xs

/-- `extractMcpText` (part_002 lines 143-157): if `content` is an array
with at least one non-empty text block, join those texts with newlines;
otherwise, if `structuredContent` is present (not `undefined`), return
its serialization; otherwise serialize `result ?? \x7b\x7d`.  Never
throws. -/
def extractMcpText (result : JSValue) : String :=
  let texts :=
    match result.field "content" with
    | .arr xs => mcpTexts xs
    | _ => []
  if texts.length != 0 then String.intercalate "\n" texts
  else
    match result.field "structuredContent" with
    | .undef =>
      ((jsonStringify (result.coalesce (.obj .nil))).getD "undefined")
    | sc => ((jsonStringify sc).getD "undefined")

deriving instance DecidableEq for Except

/-! ## Conversation messages and tool calls -/

/-- Role of a chat message. -/
inductive Role : Type where
  | system
  | user
  | assistant
  | tool
deriving DecidableEq

/-- A tool call emitted by the completion service: opaque identifier,
tool name, and the raw serialized argument payload (a string in the
Groq/OpenAI SDK types used by the repository). -/
structure ToolCall : Type where
  id : String
  name : String
  args : String
deriving DecidableEq

/-- A chat-completion message as held in the per-request message array:
role, `content` (`none` models a null/undefined content), the
`tool_call_id` of tool messages, and the tool calls attached to
assistant messages. -/
structure Msg : Type where
  role : Role
  content : Option String := none
  tool_call_id : Option String := none
  tool_calls : List ToolCall := []
deriving DecidableEq

/-- The assistant message returned by one chat completion
(`choices[0].message`). -/
structure CompMsg : Type where
  content : Option String := none
  tool_calls : List ToolCall := []
deriving DecidableEq

/-- Number of assistant messages in a message list (each model
round-trip that answered appends exactly one). -/
def assistantCount (msgs : List Msg) : Nat :=
  msgs.countP (fun m => m.role == Role.assistant)

/-! ## Tool execution, part_001 (lines 149-182)

`JSON.parse` and the MCP tool host are external effects; they are passed
in as functions returning `Except`, whose `.error e` models a thrown
exception with message `e`. -/

/-- Content of the error tool message pushed by the part_001 tool loop
(lines 174-180): the serialization of an object with a single `error`
field built from the thrown message. -/
def toolErrorContentP1 (msg : String) : String :=
  (jsonStringify (.obj (.cons "error"
    (.str ("Tool execution failed: " ++ msg ++ ". Please check arguments.")) .nil))).getD ""

/-- The string pushed as a tool message's content: the value produced by
`extractTextFromMcpResult` (always a string for the results the tool
host produces; a non-string extraction has no content). -/
def contentOfValue : JSValue → Option String
  | .str s => some s
  | _ => none

/-- One iteration of the part_001 tool loop (lines 149-182): parse the
raw arguments, invoke the tool host, extract the result text — all
inside a single try/catch, so any thrown error (from parsing, invocation
or extraction) becomes a tool message carrying a structured error
payload.  The function is total: every tool call yields exactly one tool
message and no exception escapes. -/
def executeToolCallP1 (parseJson : String → Except String JSValue)
    (callTool : String → JSValue → Except String JSValue)
    (tc : ToolCall) : Msg :=
  match parseJson tc.args with
  | .error e =>
    { role := .tool, tool_call_id := some tc.id, content := some (toolErrorContentP1 e) }
  | .ok args =>
    match callTool tc.name args with
    | .error e =>
      { role := .tool, tool_call_id := some tc.id, content := some (toolErrorContentP1 e) }
    | .ok mcpResult =>
      match extractTextFromMcpResult mcpResult with
      | .thrown e =>
        { role := .tool, tool_call_id := some tc.id, content := some (toolErrorContentP1 e) }
      | .value v =>
        { role := .tool, tool_call_id := some tc.id, content := contentOfValue v }

/-- The tool phase of part_001: one tool message per tool call, in
emission order. -/
def toolPhaseP1 (parseJson : String → Except String JSValue)
    (callTool : String → JSValue → Except String JSValue)
    (tcs : List ToolCall) : List Msg :=
  tcs.map (executeToolCallP1 parseJson callTool)

/-! ## Tool execution, Groq variant of src/server.ts (lines 424-460) -/

/-- Content of the error tool message in the Groq variant of
src/server.ts (line 457): the serialization of an object carrying the
thrown message under `error`. -/
def toolErrorContentSrv (msg : String) : String :=
  (jsonStringify (.obj (.cons "error" (.str msg) .nil))).getD ""

/-- The tool loop of the Groq variant of src/server.ts (lines 431-460):
`JSON.parse(toolCall.function.arguments)` runs OUTSIDE the try/catch, so
an argument-parse failure propagates out of the loop and aborts the
request; only tool-host invocation (and extraction) failures are caught
and turned into error tool messages. -/
def toolPhaseSrv (parseJson : String → Except String JSValue)
    (callTool : String → JSValue → Except String JSValue) :
    List ToolCall → List Msg → Except String (List Msg)
  | [], msgs => .ok msgs
  | tc :: rest, msgs =>
    match parseJson tc.args with
    | .error e => .error e
    | .ok functionArgs =>
      let m : Msg :=
        match callTool tc.name functionArgs with
        | .error e =>
          { role := .tool, tool_call_id := some tc.id, content := some (toolErrorContentSrv e) }
        | .ok mcpResult =>
          match extractTextFromMcpResult mcpResult with
          | .thrown e =>
            { role := .tool, tool_call_id := some tc.id, content := some (toolErrorContentSrv e) }
          | .value v =>
            { role := .tool, tool_call_id := some tc.id, content := contentOfValue v }
      toolPhaseSrv parseJson callTool rest (msgs ++ [m])

/-! ## The bounded tool loop of part_002 (lines 203-267) -/

/-- The tool sub-loop of part_002 (lines 236-258): an argument-parse
failure is silently replaced by empty-object arguments (`catch`
=> `argsObj = \x7b\x7d`), but `callMcpTool` is NOT wrapped in a
try/catch, so a tool-host failure propagates and aborts the whole
request. -/
def toolPhaseP2 (parseJson : String → Except String JSValue)
    (callTool : String → JSValue → Except String JSValue) :
    List ToolCall → List Msg → Except String (List Msg)
  | [], msgs => .ok msgs
  | tc :: rest, msgs =>
    let argsObj := match parseJson tc.args with
      | .ok v => v
      | .error _ => .obj .nil
    match callTool tc.name argsObj with
    | .error e => .error e
    | .ok toolResult =>
      let m : Msg :=
        { role := .tool, tool_call_id := some tc.id,
          content := some (extractMcpText toolResult) }
      toolPhaseP2 parseJson callTool rest (msgs ++ [m])

/-- The step budget of part_002 (line 204). -/
def MAX_STEPS : Nat := 8

/-- The bounded loop of part_002 (lines 206-267), recursion on the
remaining step budget.  Each round: one completion call; if it yields
text and no tool calls, that text is final; if it yields tool calls, the
assistant message and its tool messages are appended and the loop
continues; otherwise a defensive break.  When the budget runs out,
`finalText` keeps its initial value, the empty string.  `.error` models
an exception propagating to the request-level catch. -/
def loopP2 (parseJson : String → Except String JSValue)
    (callTool : String → JSValue → Except String JSValue)
    (complete : List Msg → Except String CompMsg) :
    Nat → List Msg → Except String (String × List Msg)
  | 0, msgs => .ok ("", msgs)
  | n + 1, msgs =>
    match complete msgs with
    | .error e => .error e
    | .ok cm =>
      let assistantText := cm.content.getD ""
      if cm.tool_calls.isEmpty && assistantText != "" then
        .ok (assistantText, msgs ++ [{ role := .assistant, content := some assistantText }])
      else if !cm.tool_calls.isEmpty then
        let am : Msg :=
          { role := .assistant, content := some assistantText,
            tool_calls := cm.tool_calls }
        match toolPhaseP2 parseJson callTool cm.tool_calls (msgs ++ [am]) with
        | .error e => .error e
        | .ok msgs2 => loopP2 parseJson callTool complete n msgs2
      else
        .ok ("", msgs)

/-! ## Tool discovery with caching, part_001 (lines 57-81) -/

/-- A tool as advertised by the MCP host (`tools/list`). -/
structure McpToolDef : Type where
  name : String
  description : Option String := none
  inputSchema : JSValue := .obj .nil
deriving DecidableEq

/-- A tool schema in the completion service's function format. -/
structure GroqTool : Type where
  name : String
  description : Option String := none
  parameters : JSValue := .obj .nil
deriving DecidableEq

/-- The schema translation applied inside `getGroqTools` (lines 66-73). -/
def toGroqTool (t : McpToolDef) : GroqTool :=
  { name := t.name, description := t.description, parameters := t.inputSchema }

/-- `getGroqTools` of part_001 (lines 57-81), with the module-level
cache cell `cachedGroqTools` passed and returned explicitly.  `discover`
models `getMcpClient()` followed by `client.listTools()` (`.error` = any
transport or response-shape failure, all caught by the source's
try/catch).  A populated cache (even an empty array, which is truthy) is
returned as is; a discovery failure returns the empty list and leaves
the cache unset, so the next call retries. -/
def getGroqTools (cache : Option (List GroqTool))
    (discover : Except String (List McpToolDef)) :
    List GroqTool × Option (List GroqTool) :=
  match cache with
  | some ts => (ts, some ts)
  | none =>
    match discover with
    | .ok mcpTools =>
      let ts := mcpTools.map toGroqTool
      (ts, some ts)
    | .error _ => ([], none)

/-! ## Completion-request construction -/

/-- A chat-completion request as built by the gateway: the message
array, the `tools` field (`none` models an omitted/undefined field) and
the `tool_choice` field. -/
structure ChatRequest : Type where
  messages : List Msg
  tools : Option (List GroqTool) := none
  tool_choice : Option String := none
deriving DecidableEq

/-- part_001 lines 128-136, the initial completion call: schemas and
tool_choice "auto" when the catalog is non-empty; otherwise the tools
field is omitted (`undefined`) and tool_choice is "none". -/
def buildRequestP1 (availableTools : List GroqTool) (messages : List Msg) : ChatRequest :=
  let hasTools := availableTools.length != 0
  { messages := messages,
    tools := if hasTools then some availableTools else none,
    tool_choice := some (if hasTools then "auto" else "none") }

/-- part_002 lines 207-212: every completion call of the bounded loop
passes the translated tool list (possibly empty) and tool_choice "auto"
unconditionally. -/
def buildRequestP2 (tools : List GroqTool) (messages : List Msg) : ChatRequest :=
  { messages := messages, tools := some tools, tool_choice := some "auto" }

/-! ## Conversation history, part_000 (lines 80-119) / part_002 (lines 179-271) -/

/-- A stored chat-history entry of part_000/part_002 (plain role and
string content). -/
structure ChatMessage : Type where
  role : Role
  content : String
deriving DecidableEq

/-- The default system prompt of part_000 (lines 30-31) and part_002
(lines 33-34). -/
def DEFAULT_SYSTEM_PROMPT : String :=
  "You are an assistant for a POC that automates backend actions via MCP tools.\nUse the tools to help the user. Ask for missing data one-by-one and always ask before executing any action."

/-- part_000 lines 83-91 / part_002 lines 182-188: the history for a
conversation id (absent id => empty array) and, when it is empty, the
seeding of the trimmed persona prompt — caller-supplied when present
(`systemPrompt ?? DEFAULT_SYSTEM_PROMPT`), pushed only when the trimmed
text is non-empty (`if (sys)`). -/
def seedHistory (old : List ChatMessage) (systemPrompt : Option String) : List ChatMessage :=
  if old.isEmpty then
    let sys := jsTrim (systemPrompt.getD DEFAULT_SYSTEM_PROMPT)
    if sys != "" then [{ role := .system, content := sys }] else []
  else old

/-- The history mutation performed by one part_000 request (lines
83-119): seed when the session is new, append the user message, then
append the assistant reply only when its text is non-empty
(`response.output_text ?? ""` pushed under `if (text)`; part_002 line
270 behaves identically with `if (finalText)`). -/
def handlerHistory (old : List ChatMessage) (systemPrompt : Option String)
    (message : String) (modelText : String) : List ChatMessage :=
  let h1 := seedHistory old systemPrompt ++ [{ role := .user, content := message }]
  if modelText != "" then h1 ++ [{ role := .assistant, content := modelText }] else h1

/-! ## The part_001 request handler (lines 95-216) -/

/-- The request body of POST /chat/openai; every field may be absent. -/
structure RequestBody : Type where
  conversationId : Option String := none
  systemPrompt : Option String := none
  message : Option String := none
deriving DecidableEq

/-- An HTTP response as produced by the handler: status code, the
success-payload `text` field, and the error-payload `error` field. -/
structure HttpResponse : Type where
  status : Nat
  text : Option String := none
  error : Option String := none
deriving DecidableEq

/-- The strict default system prompt of part_001 (lines 109-112),
modelled up to the template-literal indentation. -/
def defaultSystemP1 : String :=
  "You are a helpful assistant.\nIMPORTANT: If you need to use a tool, generate the tool call JSON silently.\nDo NOT describe what you are doing (e.g. do not write \"I will check...\").\nJust execute the function."

/-- The completion chain of the part_001 handler, steps 4-7 (lines
128-210): initial call with the catalog-dependent tool fields; when the
reply carries tool calls, append it, run the tool phase, and make a
final call with no tools; otherwise the reply is final.  A thrown
completion-service error propagates, carrying the messages accumulated
so far (the source mutates the stored array in place). -/
def runP1 (parseJson : String → Except String JSValue)
    (callTool : String → JSValue → Except String JSValue)
    (complete : ChatRequest → Except String CompMsg)
    (availableTools : List GroqTool) (messages : List Msg) :
    Except (String × List Msg) (Option String × List Msg) :=
  match complete (buildRequestP1 availableTools messages) with
  | .error e => .error (e, messages)
  | .ok rm =>
    if rm.tool_calls.length != 0 then
      let messages1 := messages ++
        [{ role := .assistant, content := rm.content, tool_calls := rm.tool_calls }]
      let messages2 := messages1 ++ toolPhaseP1 parseJson callTool rm.tool_calls
      match complete { messages := messages2 } with
      | .error e => .error (e, messages2)
      | .ok fin =>
        .ok (fin.content, messages2 ++
          [{ role := .assistant, content := fin.content, tool_calls := fin.tool_calls }])
    else
      .ok (rm.content, messages ++
        [{ role := .assistant, content := rm.content, tool_calls := rm.tool_calls }])

/-- The part_001 handler (lines 95-216): reject a missing or empty
`conversationId` with a 400 (`if (!conversationId)`); otherwise
load-or-create the conversation, append the user message — the required
`message` field is NOT validated, an absent one is appended with
undefined content — run the completion chain and store the final
messages.  A propagated error becomes a 500 whose payload is the thrown
message, or "Internal Server Error" when that message is empty
(`err?.message || "Internal Server Error"`); because an existing
session's array is mutated in place, the messages accumulated before the
throw remain stored. -/
def handlerP1 (parseJson : String → Except String JSValue)
    (callTool : String → JSValue → Except String JSValue)
    (complete : ChatRequest → Except String CompMsg)
    (availableTools : List GroqTool)
    (store : String → Option (List Msg)) (body : RequestBody) :
    HttpResponse × (String → Option (List Msg)) :=
  let cidOk := match body.conversationId with
    | none => false
    | some c => c != ""
  if !cidOk then
    ({ status := 400, error := some "conversationId is required" }, store)
  else
    let cid := body.conversationId.getD ""
    let existed := (store cid).isSome
    let messages := match store cid with
      | some ms => ms
      | none =>
        [{ role := .system, content := some (match body.systemPrompt with
            | some sp => if sp != "" then defaultSystemP1 ++ "\n" ++ sp else defaultSystemP1
            | none => defaultSystemP1) }]
    let messages := messages ++ [{ role := .user, content := body.message }]
    match runP1 parseJson callTool complete availableTools messages with
    | .ok (text, msgs2) =>
      ({ status := 200, text := text },
        fun k => if k = cid then some msgs2 else store k)
    | .error (e, accMsgs) =>
      ({ status := 500, error := some (if e != "" then e else "Internal Server Error") },
        if existed then (fun k => if k = cid then some accMsgs else store k) else store)

/-! ## Concrete sample values and external-effect stubs -/

/-- The structured payload of the specification's scenario. -/
def scStatusOk : JSValue := .obj (.cons "status" (.str "ok") .nil)

/-- A textual content block with text "hello". -/
def textBlockHello : JSValue :=
  .obj (.cons "type" (.str "text") (.cons "text" (.str "hello") .nil))

/-- A raw tool result carrying both a structured payload and a text
block. -/
def resultBoth : JSValue :=
  .obj (.cons "structuredContent" scStatusOk
    (.cons "content" (.arr (.cons textBlockHello .nil)) .nil))

/-- A raw tool result whose `structuredContent` field is present but
falsy (the empty string), alongside a text block. -/
def resultFalsyStructured : JSValue :=
  .obj (.cons "structuredContent" (.str "")
    (.cons "content" (.arr (.cons textBlockHello .nil)) .nil))

/-- A parse stub for `JSON.parse`: only the canonical empty-object
payload parses. -/
def stubParse : String → Except String JSValue :=
  fun s => if s = "\x7b\x7d" then .ok (.obj .nil)
    else .error "SyntaxError: Unexpected token in JSON"

/-- A tool-host stub that always succeeds with a structured result. -/
def stubCallToolOk : String → JSValue → Except String JSValue :=
  fun _ _ => .ok (.obj (.cons "structuredContent" scStatusOk .nil))

/-- A tool-host stub that always fails. -/
def stubCallToolFail : String → JSValue → Except String JSValue :=
  fun _ _ => .error "MCP HTTP 500: tool host down"

/-- A completion-service stub that requests one tool call on every
round-trip. -/
def stubCompleteToolCall : List Msg → Except String CompMsg :=
  fun _ => .ok { content := none, tool_calls := [⟨"call-1", "lookup", "\x7b\x7d"⟩] }

/-- A tool call with well-formed arguments. -/
def tcOk : ToolCall := ⟨"call-1", "lookup", "\x7b\x7d"⟩

/-- A tool call whose raw argument payload does not parse. -/
def tcBad : ToolCall := ⟨"call-9", "lookup", "not json"⟩

/-! ## C1 — extractor priority -/

/-- C1 counterexample: `extractMcpText` (part_002), on a raw result
carrying both a structured payload and a text block, returns the text
block's text, NOT the serialized structured payload — the claimed
structured-first priority fails for this extractor (its code tries the
text blocks first and serializes `structuredContent` only as a
fallback). -/
theorem extractMcpText_prefers_text_over_structured :
    extractMcpText resultBoth = "hello" ∧
    jsonStringify (resultBoth.field "structuredContent") =
      some "\x7b\"status\":\"ok\"\x7d" ∧
    ("hello" : String) ≠ "\x7b\"status\":\"ok\"\x7d" := by decide

/-- C1 (amended): `extractTextFromMcpResult` (src/server.ts, part_001)
obeys the claimed first-match-wins priority — truthy structured payload
serialized first; else the first textual content block's text; else the
serialization of the entire raw result — while `extractMcpText`
(part_002) instead prefers the text blocks (see the counterexample). -/
theorem extractTextFromMcpResult_priority (result : JSValue) :
    ((result.field "structuredContent").truthy = true →
      extractTextFromMcpResult result =
        .value (jsonStringifyVal (result.field "structuredContent"))) ∧
    (∀ xs found t, (result.field "structuredContent").truthy = false →
      result.field "content" = .arr xs → findTextBlock xs = .value found →
      found.field "text" = .str t →
      extractTextFromMcpResult result = .value (.str t)) ∧
    ((result.field "structuredContent").truthy = false →
      (result.field "content" = .undef ∨ result.field "content" = .null) →
      extractTextFromMcpResult result = .value (jsonStringifyVal result)) := by
  refine ⟨?_, ?_, ?_⟩
  · intro h
    simp [extractTextFromMcpResult, h]
  · intro xs found t h hc hf ht
    simp [extractTextFromMcpResult, h, hc, hf, ht]
  · intro h hc
    rcases hc with hc | hc <;> simp [extractTextFromMcpResult, h, hc]

/-- Witness for the C1 theorem at the scenario result carrying both a
structured payload and a text block. -/
theorem extractTextFromMcpResult_priority_witness :
    (resultBoth.field "structuredContent").truthy = true ∧
    extractTextFromMcpResult resultBoth =
      .value (jsonStringifyVal (resultBoth.field "structuredContent")) :=
  ⟨by decide, (extractTextFromMcpResult_priority resultBoth).1 (by decide)⟩

/-! ## C10 — falsy structuredContent is skipped -/

/-- C10: when `structuredContent` is present but falsy (empty string, 0,
false, null), `extractTextFromMcpResult` skips the structured branch: a
first text block wins, and with no text block the entire raw result is
serialized.  Only a truthy `structuredContent` is serialized as the
structured payload. -/
theorem extractTextFromMcpResult_falsy_structured_skipped
    (result v : JSValue) (hv : result.field "structuredContent" = v)
    (_hpresent : v ≠ .undef) (hfalsy : v.truthy = false) :
    (∀ xs found t, result.field "content" = .arr xs →
      findTextBlock xs = .value found → found.field "text" = .str t →
      extractTextFromMcpResult result = .value (.str t)) ∧
    ((result.field "content" = .undef ∨ result.field "content" = .null) →
      extractTextFromMcpResult result = .value (jsonStringifyVal result)) := by
  have h : (result.field "structuredContent").truthy = false := by
    rw [hv]; exact hfalsy
  refine ⟨?_, ?_⟩
  · intro xs found t hc hf ht
    simp [extractTextFromMcpResult, h, hc, hf, ht]
  · intro hc
    rcases hc with hc | hc <;> simp [extractTextFromMcpResult, h, hc]

/-- Witness for the C10 theorem: a result whose `structuredContent` is
the (falsy) empty string falls through to the text block. -/
theorem extractTextFromMcpResult_falsy_structured_skipped_witness :
    resultFalsyStructured.field "structuredContent" = .str "" ∧
    (JSValue.str "").truthy = false ∧
    extractTextFromMcpResult resultFalsyStructured = .value (.str "hello") :=
  ⟨by decide, by decide,
    (extractTextFromMcpResult_falsy_structured_skipped resultFalsyStructured (.str "")
      (by decide) (by decide) (by decide)).1 (.cons textBlockHello .nil) textBlockHello
      "hello" (by decide) (by decide) (by decide)⟩

/-! ## C5 — catalog degradation and caching -/

/-- C5: a discovery failure makes `getGroqTools` return the empty set
without caching the failure; an uncached successful discovery populates
and caches the translated catalog; a populated cache is reused on every
later call regardless of the tool host; and a discovery failure followed
by a successful retry populates the catalog. -/
theorem getGroqTools_degradation_and_caching :
    (∀ e, getGroqTools none (.error e) = ([], none)) ∧
    (∀ ts, getGroqTools none (.ok ts) =
      (ts.map toGroqTool, some (ts.map toGroqTool))) ∧
    (∀ cached d, getGroqTools (some cached) d = (cached, some cached)) ∧
    (∀ e ts, getGroqTools (getGroqTools none (.error e)).2 (.ok ts) =
      (ts.map toGroqTool, some (ts.map toGroqTool))) :=
  ⟨fun _ => rfl, fun _ => rfl, fun _ _ => rfl, fun _ _ => rfl⟩

/-! ## C6 — empty catalog disables tool-choice -/

/-- C6 counterexample: part_002 builds every completion request with
`tool_choice: "auto"` unconditionally; with an empty catalog it passes
an empty schema list with tool-choice still enabled, instead of
disabling tool-choice. -/
theorem buildRequestP2_empty_catalog_tool_choice_auto :
    buildRequestP2 [] [] =
      { messages := [], tools := some [], tool_choice := some "auto" } ∧
    (buildRequestP2 [] []).tool_choice ≠ some "none" := by decide

/-- C6 (amended): part_001 enables tool use only when the catalog is
non-empty; with an empty catalog the tools field is omitted entirely and
tool_choice is "none", while part_002 always sends tool_choice "auto"
(see the counterexample). -/
theorem buildRequestP1_tool_choice (ts : List GroqTool) (msgs : List Msg) :
    buildRequestP1 ts msgs =
      if ts.isEmpty then
        { messages := msgs, tools := none, tool_choice := some "none" }
      else
        { messages := msgs, tools := some ts, tool_choice := some "auto" } := by
  cases ts <;> rfl

/-! ## C2 — no tool failure aborts the loop -/

/-- C2 counterexample: in part_002, `callMcpTool` is not guarded by a
try/catch, so with a tool host whose calls always fail the whole run
raises (the exception reaches the request-level catch and the request
fails with a 500) instead of terminating normally with the failure
encoded in a tool message. -/
theorem loopP2_raises_on_tool_failure :
    loopP2 stubParse stubCallToolFail stubCompleteToolCall MAX_STEPS [] =
      .error "MCP HTTP 500: tool host down" := by decide

/-- C2 (amended): in the part_001 loop every tool call yields exactly
one tool message and no exception escapes (`executeToolCallP1` is a
total function into `Msg`); with an always-failing tool host the tool
message content is the structured failure payload.  In the part_002
variant, by contrast, a tool-host failure propagates and aborts the
request (see the counterexample). -/
theorem toolPhaseP1_never_raises_encodes_failure :
    (∀ parseJson callTool tcs,
      (toolPhaseP1 parseJson callTool tcs).length = tcs.length) ∧
    (∀ parseJson callTool tc, (∀ nm a, ∃ e, callTool nm a = .error e) →
      ∃ e, executeToolCallP1 parseJson callTool tc =
        { role := Role.tool, tool_call_id := some tc.id,
          content := some (toolErrorContentP1 e) }) := by
  constructor
  · intro p c tcs
    simp [toolPhaseP1]
  · intro p c tc h
    cases hp : p tc.args with
    | error e =>
      exact ⟨e, by simp [executeToolCallP1, hp]⟩
    | ok args =>
      obtain ⟨e, he⟩ := h tc.name args
      exact ⟨e, by simp [executeToolCallP1, hp, he]⟩

/-- Witness for the C2 theorem: the always-failing tool host stub. -/
theorem toolPhaseP1_never_raises_encodes_failure_witness :
    (∀ nm a, ∃ e, stubCallToolFail nm a = .error e) ∧
    ∃ e, executeToolCallP1 stubParse stubCallToolFail tcOk =
      { role := Role.tool, tool_call_id := some tcOk.id,
        content := some (toolErrorContentP1 e) } :=
  ⟨fun _ _ => ⟨"MCP HTTP 500: tool host down", rfl⟩,
    toolPhaseP1_never_raises_encodes_failure.2 stubParse stubCallToolFail tcOk
      (fun _ _ => ⟨"MCP HTTP 500: tool host down", rfl⟩)⟩

/-! ## C4 — malformed tool arguments -/

/-- C4 counterexample: in the Groq variant of src/server.ts,
`JSON.parse(toolCall.function.arguments)` runs outside the try/catch, so
a tool call whose raw argument payload does not parse makes the whole
loop raise — the parse failure IS propagated out as an exception and no
malformed-arguments tool message is appended. -/
theorem toolPhaseSrv_parse_failure_propagates :
    toolPhaseSrv stubParse stubCallToolOk [tcBad] [] =
      .error "SyntaxError: Unexpected token in JSON" := by decide

/-- C4 (amended): only in part_001 does an argument-parse failure yield
a failed tool message describing the condition, without retrying and
without invoking the tool host (the result does not depend on the tool
host at all); in the Groq src/server.ts variant the parse failure
propagates as an exception (counterexample), and in part_002 it is
silently replaced by empty-object arguments. -/
theorem executeToolCallP1_parse_failure_tool_message
    (parseJson : String → Except String JSValue)
    (callTool callTool2 : String → JSValue → Except String JSValue)
    (tc : ToolCall) (e : String) (hp : parseJson tc.args = .error e) :
    executeToolCallP1 parseJson callTool tc =
      { role := Role.tool, tool_call_id := some tc.id,
        content := some (toolErrorContentP1 e) } ∧
    executeToolCallP1 parseJson callTool tc =
      executeToolCallP1 parseJson callTool2 tc := by
  constructor <;> simp [executeToolCallP1, hp]

/-- Witness for the C4 theorem: the stub parse failing on `tcBad`. -/
theorem executeToolCallP1_parse_failure_tool_message_witness :
    stubParse tcBad.args = .error "SyntaxError: Unexpected token in JSON" ∧
    executeToolCallP1 stubParse stubCallToolOk tcBad =
      { role := Role.tool, tool_call_id := some tcBad.id,
        content := some (toolErrorContentP1 "SyntaxError: Unexpected token in JSON") } ∧
    executeToolCallP1 stubParse stubCallToolOk tcBad =
      executeToolCallP1 stubParse stubCallToolFail tcBad :=
  ⟨by decide,
    (executeToolCallP1_parse_failure_tool_message stubParse stubCallToolOk
      stubCallToolFail tcBad "SyntaxError: Unexpected token in JSON" (by decide)).1,
    (executeToolCallP1_parse_failure_tool_message stubParse stubCallToolOk
      stubCallToolFail tcBad "SyntaxError: Unexpected token in JSON" (by decide)).2⟩

/-! ## C8 — tool-call / tool-message pairing -/

/-- Helper: the tool message produced by the part_001 executor always
references the call's identifier and has the tool role, on both the
success and the failure branch. -/
theorem executeToolCallP1_id_role (parseJson : String → Except String JSValue)
    (callTool : String → JSValue → Except String JSValue) (tc : ToolCall) :
    (executeToolCallP1 parseJson callTool tc).tool_call_id = some tc.id ∧
    (executeToolCallP1 parseJson callTool tc).role = Role.tool := by
  unfold executeToolCallP1
  constructor <;> (repeat' split) <;> rfl

/-- C8 counterexample: in the Groq variant of src/server.ts, an
assistant message carrying two tool calls whose second call has
malformed arguments makes the loop raise after executing the first call;
the accumulated tool messages are discarded with the failed request, so
no block of tool messages answering the emitted tool calls (in
particular none referencing the second call's identifier) is ever
appended to the conversation. -/
theorem toolPhaseSrv_unanswered_tool_calls :
    toolPhaseSrv stubParse stubCallToolOk [tcOk, tcBad] [] =
      .error "SyntaxError: Unexpected token in JSON" := by decide

/-- C8 (amended): in the part_001 loop, every assistant-emitted tool
call receives exactly one tool message, in emission order, each
referencing that call's identifier, regardless of success or failure of
execution; in the Groq src/server.ts variant this holds only when every
call's raw arguments parse (see the counterexample). -/
theorem toolPhaseP1_pairing (parseJson : String → Except String JSValue)
    (callTool : String → JSValue → Except String JSValue) (tcs : List ToolCall) :
    (toolPhaseP1 parseJson callTool tcs).map Msg.tool_call_id =
      tcs.map (fun tc => some tc.id) ∧
    (toolPhaseP1 parseJson callTool tcs).map Msg.role =
      tcs.map (fun _ => Role.tool) := by
  constructor
  · simp only [toolPhaseP1, List.map_map]
    exact List.map_congr_left fun tc _ =>
      (executeToolCallP1_id_role parseJson callTool tc).1
  · simp only [toolPhaseP1, List.map_map]
    exact List.map_congr_left fun tc _ =>
      (executeToolCallP1_id_role parseJson callTool tc).2

/-! ## C3 — step budget termination -/

/-- Helper: when the tool host never throws, the part_002 tool sub-loop
returns normally and appends only tool-role messages, so the number of
assistant messages is unchanged. -/
theorem toolPhaseP2_ok_of_callTool_ok
    (parseJson : String → Except String JSValue)
    (callTool : String → JSValue → Except String JSValue)
    (h : ∀ nm a, ∃ r, callTool nm a = .ok r) :
    ∀ tcs msgs, ∃ msgs2, toolPhaseP2 parseJson callTool tcs msgs = .ok msgs2 ∧
      assistantCount msgs2 = assistantCount msgs := by
  intro tcs
  induction tcs with
  | nil => exact fun msgs => ⟨msgs, rfl, rfl⟩
  | cons tc rest ih =>
    intro msgs
    obtain ⟨r, hr⟩ := h tc.name (match parseJson tc.args with
      | .ok v => v
      | .error _ => .obj .nil)
    obtain ⟨msgs2, h2, hcnt⟩ := ih (msgs ++ [{ role := Role.tool, tool_call_id := some tc.id, content := some (extractMcpText r) }])
    refine ⟨msgs2, ?_, ?_⟩
    · rw [toolPhaseP2, hr]
      exact h2
    · rw [hcnt]
      simp [assistantCount]

/-- C3 counterexample: with a completion service that requests a tool
call on every round-trip, the part_002 loop does stop after its MAX_STEPS
= 8 round-trips (8 assistant messages appended), but the reply text is
the empty string — a silent empty response, not a degraded
FAILED-derived answer. -/
theorem loopP2_budget_exhaustion_silent_empty :
    (loopP2 stubParse stubCallToolOk stubCompleteToolCall MAX_STEPS []).map
      (fun p => (p.1, assistantCount p.2)) = .ok ("", 8) := by decide

/-- C3 (amended): for every tool host and completion service, the
part_002 loop makes at most the configured number of model round-trips
(it is total by bounded recursion on the remaining budget); when the
completion service requests a tool call on every round-trip and the tool
host never throws, it runs exactly the full budget — appending exactly
one assistant message per round-trip — and returns normally, but with
the empty string as the answer (not a FAILED-derived degraded answer;
see the counterexample). -/
theorem loopP2_step_budget_termination
    (parseJson : String → Except String JSValue)
    (callTool : String → JSValue → Except String JSValue)
    (complete : List Msg → Except String CompMsg)
    (hcomplete : ∀ ms, ∃ cm, complete ms = .ok cm ∧ cm.tool_calls ≠ [])
    (hcall : ∀ nm a, ∃ r, callTool nm a = .ok r) :
    ∀ n msgs, ∃ msgs2,
      loopP2 parseJson callTool complete n msgs = .ok ("", msgs2) ∧
      assistantCount msgs2 = assistantCount msgs + n := by
  intro n
  induction n with
  | zero => exact fun msgs => ⟨msgs, rfl, rfl⟩
  | succ n ih =>
    intro msgs
    obtain ⟨cm, hcm, hne⟩ := hcomplete msgs
    have hie : cm.tool_calls.isEmpty = false := by
      cases hl : cm.tool_calls with
      | nil => exact absurd hl hne
      | cons a l => rfl
    obtain ⟨msgs2, h2, hcnt2⟩ := toolPhaseP2_ok_of_callTool_ok parseJson callTool
      hcall cm.tool_calls (msgs ++ [{ role := Role.assistant, content := some (cm.content.getD ""), tool_calls := cm.tool_calls }])
    obtain ⟨msgs3, h3, hcnt3⟩ := ih msgs2
    refine ⟨msgs3, ?_, ?_⟩
    · rw [loopP2, hcm]
      simp only [hie, Bool.false_and, Bool.not_false, if_neg, if_pos, Bool.false_eq_true,
        not_false_eq_true, if_true, if_false]
      rw [h2]
      exact h3
    · rw [hcnt3, hcnt2]
      simp [assistantCount]
      omega

/-- Witness for the C3 theorem: the concrete always-tool-calling
completion stub and the always-succeeding tool host, at the full budget
of 8 steps. -/
theorem loopP2_step_budget_termination_witness :
    (∀ ms, ∃ cm, stubCompleteToolCall ms = .ok cm ∧ cm.tool_calls ≠ []) ∧
    (∀ nm a, ∃ r, stubCallToolOk nm a = .ok r) ∧
    ∃ msgs2, loopP2 stubParse stubCallToolOk stubCompleteToolCall MAX_STEPS [] =
      .ok ("", msgs2) ∧ assistantCount msgs2 = assistantCount [] + MAX_STEPS :=
  ⟨fun _ => ⟨_, rfl, by decide⟩, fun _ _ => ⟨_, rfl⟩,
    loopP2_step_budget_termination stubParse stubCallToolOk stubCompleteToolCall
      (fun _ => ⟨_, rfl, by decide⟩) (fun _ _ => ⟨_, rfl⟩) MAX_STEPS []⟩

/-! ## C7 — append-only conversation history and session seeding -/

/-- C7 counterexample: a blank caller-supplied persona prompt makes
part_000/part_002 create the session WITHOUT any system message — the
trimmed empty prompt fails the `if (sys)` guard, so the first reference
seeds nothing and the first stored message is the user message. -/
theorem handlerHistory_blank_persona_no_system_message :
    handlerHistory [] (some "") "hi" "ok" =
      [{ role := Role.user, content := "hi" },
        { role := Role.assistant, content := "ok" }] ∧
    (handlerHistory [] (some "") "hi" "ok").all
      (fun msg => msg.role != Role.system) = true := by decide

/-- C7 (amended): the history of part_000/part_002 is append-only —
every request leaves the previously stored sequence as a prefix, in
order — and a session is created on first reference seeded with a single
system message carrying the trimmed persona text (caller-supplied, else
the default) PROVIDED that trimmed text is non-empty; a blank persona
yields a session with no system message (see the counterexample). -/
theorem handlerHistory_append_only_and_seeding :
    (∀ old sp m t, old <+: handlerHistory old sp m t) ∧
    (∀ sp m t, jsTrim (sp.getD DEFAULT_SYSTEM_PROMPT) ≠ "" →
      (handlerHistory [] sp m t).head? =
        some { role := Role.system, content := jsTrim (sp.getD DEFAULT_SYSTEM_PROMPT) }) := by
  constructor
  · intro old sp m t
    unfold handlerHistory
    have hseed : old <+: seedHistory old sp := by
      unfold seedHistory
      cases old with
      | nil => simp
      | cons a l => simp
    refine hseed.trans ?_
    split
    · rw [List.append_assoc]
      exact List.prefix_append _ _
    · exact List.prefix_append _ _
  · intro sp m t hs
    have hb : (jsTrim (sp.getD DEFAULT_SYSTEM_PROMPT) != "") = true := by
      simpa using hs
    unfold handlerHistory seedHistory
    simp only [List.isEmpty_nil, if_true, hb]
    split <;> rfl

/-- Witness for the C7 theorem: an existing session stays a prefix, and
a fresh session with no caller persona is seeded with the default system
prompt. -/
theorem handlerHistory_append_only_and_seeding_witness :
    ([{ role := Role.system, content := "s" }] <+:
      handlerHistory [{ role := Role.system, content := "s" }] none "hi" "ok") ∧
    (handlerHistory [] none "hi" "ok").head? =
      some { role := Role.system, content := jsTrim DEFAULT_SYSTEM_PROMPT } :=
  ⟨handlerHistory_append_only_and_seeding.1 _ none "hi" "ok",
    handlerHistory_append_only_and_seeding.2 none "hi" "ok" (by decide)⟩

/-! ## C9 — request validation and error responses -/

/-- A completion-service stub that replies with plain text and no tool
calls. -/
def stubReplyOnly : ChatRequest → Except String CompMsg :=
  fun _ => .ok { content := some "hi there", tool_calls := [] }

/-- C9 counterexample: a request body WITHOUT the `message` field (but
with a conversation id) is not rejected: the part_001 handler proceeds —
it creates the session, appends a user message with undefined content,
calls the completion service and answers 200 — because the only
validated field is `conversationId`; no variant of the repository
validates `message`. -/
theorem handlerP1_missing_message_proceeds :
    (handlerP1 stubParse stubCallToolOk stubReplyOnly [] (fun _ => none)
      { conversationId := some "c1", systemPrompt := none, message := none }).1 =
      { status := 200, text := some "hi there" } ∧
    (handlerP1 stubParse stubCallToolOk stubReplyOnly [] (fun _ => none)
      { conversationId := some "c1", systemPrompt := none, message := none }).2 "c1" =
      some [{ role := Role.system, content := some defaultSystemP1 },
        { role := Role.user, content := none },
        { role := Role.assistant, content := some "hi there" }] := by
  constructor <;> rfl

/-- C9 (amended): the part_001 handler rejects a missing or empty
`conversationId` with a 400 error response, and any propagated
completion-service failure yields a 500 error response carrying the
thrown human-readable message; the required `message` field, however, is
never validated (see the counterexample). -/
theorem handlerP1_validation_and_error_reporting :
    (∀ parseJson callTool complete tools store sp m,
      (handlerP1 parseJson callTool complete tools store
        { conversationId := none, systemPrompt := sp, message := m }).1 =
        { status := 400, error := some "conversationId is required" }) ∧
    (∀ parseJson callTool complete tools store sp m,
      (handlerP1 parseJson callTool complete tools store
        { conversationId := some "", systemPrompt := sp, message := m }).1 =
        { status := 400, error := some "conversationId is required" }) ∧
    (∀ parseJson callTool tools store body cid e,
      body.conversationId = some cid → cid ≠ "" → e ≠ "" →
      (handlerP1 parseJson callTool (fun _ => .error e) tools store body).1 =
        { status := 500, error := some e }) := by
  refine ⟨fun p c q tools store sp m => rfl, fun p c q tools store sp m => rfl, ?_⟩
  intro p c tools store body cid e hcid hne he
  have hb : (cid != "") = true := by simpa using hne
  have hbe : (e != "") = true := by simpa using he
  unfold handlerP1
  rw [hcid]
  simp only [hb, Bool.not_true, Bool.false_eq_true, if_neg, not_false_eq_true, if_false]
  unfold runP1
  simp [hbe]

/-- Witness for the C9 theorem: a concrete missing-id request and a
concrete completion failure. -/
theorem handlerP1_validation_and_error_reporting_witness :
    (handlerP1 stubParse stubCallToolOk stubReplyOnly [] (fun _ => none)
      { conversationId := none, systemPrompt := none, message := some "hi" }).1 =
      { status := 400, error := some "conversationId is required" } ∧
    (handlerP1 stubParse stubCallToolOk
      (fun _ => .error "Groq API connection refused") [] (fun _ => none)
      { conversationId := some "c1", systemPrompt := none, message := some "hi" }).1 =
      { status := 500, error := some "Groq API connection refused" } :=
  ⟨handlerP1_validation_and_error_reporting.1 stubParse stubCallToolOk stubReplyOnly
      [] (fun _ => none) none (some "hi"),
    handlerP1_validation_and_error_reporting.2.2 stubParse stubCallToolOk
      [] (fun _ => none)
      { conversationId := some "c1", systemPrompt := none, message := some "hi" }
      "c1" "Groq API connection refused" rfl (by decide) (by decide)⟩

end AiGateway
